import Mathlib

/-!
Shallow embedding of the marketplace purchase engine of the
`Jinphinity/ssd-group-deploy` backend.

The code embedded here is the `market_buy` endpoint
(`src/capstone/api/app.py` lines 446-531; `src/api/app.py` lines 263-348 is
textually identical) together with the input validator
`InputValidator.validate_market_transaction`
(`src/api/error_handling.py` lines 330-370).

The database is modelled as lists of rows for the four tables the endpoint
touches (`market`, `characters`, `orders`, `inventories`); each SQL statement
of the endpoint becomes a total function on that state.  Aborting a
transaction returns the state as it was when the transaction opened (the
store's atomic rollback).  A trace records the pre-transaction order lookup,
how many transactions were opened, and the row locks acquired (a `FOR UPDATE`
read that matches no row locks nothing).
-/

namespace Market

/-- A row of the `market` table: per (settlement, item) price and stock. -/
structure StockRow where
  settlement_id : Int
  item_id : Int
  current_price : Int
  qty_available : Int
deriving Repr, DecidableEq

/-- A row of the `characters` table (the columns `market_buy` uses). -/
structure CharacterRow where
  character_id : Int
  user_id : Int
  money : Int
  created_at : Int
deriving Repr, DecidableEq

/-- A row of the `orders` table (the columns `market_buy` writes). -/
structure OrderRow where
  request_id : String
  user_id : Int
  item_id : Int
  quantity : Int
  price : Int
  order_type : String
  completed : Bool
deriving Repr, DecidableEq

/-- A row of the `inventories` table (the columns `market_buy` writes). -/
structure InventoryRow where
  character_id : Int
  item_id : Int
  quantity : Int
  durability_current : Int
deriving Repr, DecidableEq

/-- The database state seen by `market_buy`. -/
structure DB where
  market : List StockRow
  characters : List CharacterRow
  orders : List OrderRow
  inventories : List InventoryRow
deriving Repr, DecidableEq

/-- `SELECT current_price, qty_available FROM market WHERE settlement_id=$1 AND
item_id=$2 FOR UPDATE` (app.py:496-499): the first matching row, if any. -/
def findStock (db : DB) (sid iid : Int) : Option StockRow :=
  db.market.find? (fun r => r.settlement_id == sid && r.item_id == iid)

/-- `SELECT character_id, money FROM characters WHERE user_id=$1 ORDER BY
created_at LIMIT 1 FOR UPDATE` (app.py:505): the user's earliest-created
character row (first listed among ties), if any. -/
def earliestCharacter (db : DB) (uid : Int) : Option CharacterRow :=
  (db.characters.filter (fun c => c.user_id == uid)).foldl
    (fun acc c =>
      match acc with
      | none => some c
      | some b => if c.created_at < b.created_at then some c else some b)
    none

/-- `SELECT * FROM orders WHERE request_id = $1` (app.py:488-491). -/
def findOrder (db : DB) (tok : String) : Option OrderRow :=
  db.orders.find? (fun o => o.request_id == tok)

/-- `INSERT INTO orders ... ON CONFLICT (request_id) DO NOTHING`
(app.py:511-518): if a row with the same `request_id` already exists the
statement silently does nothing (it does NOT raise), otherwise it appends the
row. -/
def insertOrderOnConflictDoNothing (db : DB) (o : OrderRow) : DB :=
  if db.orders.any (fun x => x.request_id == o.request_id) then db
  else { db with orders := db.orders ++ [o] }

/-- `UPDATE characters SET money = money - $1 WHERE user_id=$2` (app.py:524):
debits every character row of the user. -/
def debitWallet (db : DB) (uid : Int) (amount : Int) : DB :=
  { db with
    characters := db.characters.map (fun c =>
      if c.user_id == uid then { c with money := c.money - amount } else c) }

/-- `UPDATE market SET qty_available = qty_available - $1 WHERE
settlement_id=$2 AND item_id=$3` (app.py:525). -/
def debitStock (db : DB) (sid iid q : Int) : DB :=
  { db with
    market := db.market.map (fun r =>
      if r.settlement_id == sid && r.item_id == iid then
        { r with qty_available := r.qty_available - q }
      else r) }

/-- `INSERT INTO inventories(character_id, item_id, quantity,
durability_current) VALUES ($1, $2, $3, 100)` (app.py:526). -/
def insertInventory (db : DB) (cid iid q : Int) : DB :=
  { db with inventories := db.inventories ++ [⟨cid, iid, q, 100⟩] }

/-- `UPDATE orders SET completed = TRUE WHERE request_id = $1` (app.py:529). -/
def markOrderCompleted (db : DB) (tok : String) : DB :=
  { db with
    orders := db.orders.map (fun o =>
      if o.request_id == tok then { o with completed := true } else o) }

/-- The request body `BuyIn` (app.py:441-444). -/
structure BuyIn where
  settlement_id : Int
  item_id : Int
  quantity : Int
deriving Repr, DecidableEq

/-- `InputValidator.validate_market_transaction`
(src/api/error_handling.py:330-370), specialised to requests that passed the
`BuyIn` pydantic model: the three fields are then always present and integers,
so the `is required` / `must be an integer` branches can never fire and only
the range checks remain.  The result lists the (field, message) pairs of the
Python `errors` dict in its insertion order. -/
def validate_market_transaction (data : BuyIn) : List (String × String) :=
  (if data.quantity ≤ 0 then [("quantity", "Quantity must be positive")]
   else if data.quantity > 10000 then [("quantity", "Quantity too large")]
   else [])
  ++ (if data.item_id ≤ 0 then [("item_id", "Item ID must be positive")] else [])
  ++ (if data.settlement_id ≤ 0 then
        [("settlement_id", "Settlement ID must be positive")] else [])

/-- The responses `market_buy` can produce. `ok` is the JSON
`{"ok": True, "order_id": ..., "duplicate": ...}`; `validationFailed` is
`create_error_response(422, "VALIDATION_FAILED", ...)` carrying the validation
errors; `httpError` is a raised `HTTPException(status_code, detail)`. -/
inductive Resp where
  | ok (order_id : String) (duplicate : Bool)
  | validationFailed (status : Nat) (errors : List (String × String))
  | httpError (status : Nat) (detail : String)
deriving Repr, DecidableEq

/-- A row lock acquired by a `FOR UPDATE` read that matched a row. -/
inductive LockEv where
  | stock (sid iid : Int)
  | wallet (uid : Int)
deriving Repr, DecidableEq

/-- Observable side activity of one `market_buy` call: how many
pre-transaction order lookups ran, how many transactions were opened, and the
row locks acquired, in acquisition order. -/
structure Trace where
  orderLookups : Nat
  txns : Nat
  locks : List LockEv
deriving Repr, DecidableEq

/-- The transaction body of `market_buy` (app.py:495-529), from the stock
locking read to marking the order completed.  Returns the state at commit
(on an abort, the unchanged opening state), the response, and the row locks
acquired.  A raised `HTTPException` aborts the transaction. -/
def market_buy_txn (db : DB) (user_id : Int) (tok : String) (data : BuyIn) :
    DB × Resp × List LockEv :=
  match findStock db data.settlement_id data.item_id with
  | none => (db, .httpError 400 "Out of stock", [])
  | some stock =>
    if stock.qty_available < data.quantity then
      (db, .httpError 400 "Out of stock", [.stock data.settlement_id data.item_id])
    else
      let price := stock.current_price * data.quantity
      match earliestCharacter db user_id with
      | none =>
        (db, .httpError 400 "Insufficient funds",
          [.stock data.settlement_id data.item_id])
      | some wallet =>
        if wallet.money < price then
          (db, .httpError 400 "Insufficient funds",
            [.stock data.settlement_id data.item_id, .wallet user_id])
        else
          let db1 := insertOrderOnConflictDoNothing db
            ⟨tok, user_id, data.item_id, data.quantity, price, "buy", false⟩
          let db2 := debitWallet db1 user_id price
          let db3 := debitStock db2 data.settlement_id data.item_id data.quantity
          let db4 := insertInventory db3 wallet.character_id data.item_id data.quantity
          let db5 := markOrderCompleted db4 tok
          (db5, .ok tok false,
            [.stock data.settlement_id data.item_id, .wallet user_id])

/-- Python truthiness of the `X-Request-Id` header: absent or empty is falsy
(`if not x_request_id`, app.py:458). -/
def headerPresent : Option String → Bool
  | none => false
  | some s => !s.isEmpty

/-- The `market_buy` endpoint (src/capstone/api/app.py:446-531): header check,
input validation, pre-transaction idempotency lookup, then the transaction
body.  `user_id` is the authenticated caller. -/
def market_buy (db : DB) (user_id : Int) (x_request_id : Option String)
    (data : BuyIn) : DB × Resp × Trace :=
  if headerPresent x_request_id then
    let tok := x_request_id.getD ""
    let errs := validate_market_transaction data
    if errs.isEmpty then
      match findOrder db tok with
      | some existing => (db, .ok existing.request_id true, ⟨1, 0, []⟩)
      | none =>
        let (db', r, locks) := market_buy_txn db user_id tok data
        (db', r, ⟨1, 1, locks⟩)
    else (db, .validationFailed 422 errs, ⟨0, 0, []⟩)
  else
    (db, .httpError 400 "X-Request-Id header required for idempotency", ⟨0, 0, []⟩)

/-- `market_buy` with the store's commit outcome made explicit.  `commitOk k`
says whether the commit of the `k`-th transaction attempt would succeed.  The
code has no retry loop: it attempts exactly one transaction and consults only
`commitOk 0`.  On a failed commit the raised `asyncpg.PostgresError` is mapped
by `database_exception_handler` (src/api/error_handling.py:534-547) through
`DatabaseErrorHandler`'s fallback branch (lines 209-219) to HTTP 500
"Database operation failed", with all of the transaction's writes rolled
back.  An aborted transaction (business-rule error) never reaches commit, so
`commitOk` is irrelevant there. -/
def market_buy_commit (db : DB) (user_id : Int) (x_request_id : Option String)
    (data : BuyIn) (commitOk : Nat → Bool) : DB × Resp × Trace :=
  if headerPresent x_request_id then
    let tok := x_request_id.getD ""
    let errs := validate_market_transaction data
    if errs.isEmpty then
      match findOrder db tok with
      | some existing => (db, .ok existing.request_id true, ⟨1, 0, []⟩)
      | none =>
        match market_buy_txn db user_id tok data with
        | (db', .ok oid dup, locks) =>
          if commitOk 0 then (db', .ok oid dup, ⟨1, 1, locks⟩)
          else (db, .httpError 500 "Database operation failed", ⟨1, 1, locks⟩)
        | (_, r, locks) => (db, r, ⟨1, 1, locks⟩)
    else (db, .validationFailed 422 errs, ⟨0, 0, []⟩)
  else
    (db, .httpError 400 "X-Request-Id header required for idempotency", ⟨0, 0, []⟩)

/-! ### Helper lemmas about the table operations -/

@[simp] theorem insertOrder_market (db : DB) (o : OrderRow) :
    (insertOrderOnConflictDoNothing db o).market = db.market := by
  unfold insertOrderOnConflictDoNothing; split <;> rfl

@[simp] theorem insertOrder_characters (db : DB) (o : OrderRow) :
    (insertOrderOnConflictDoNothing db o).characters = db.characters := by
  unfold insertOrderOnConflictDoNothing; split <;> rfl

@[simp] theorem insertOrder_inventories (db : DB) (o : OrderRow) :
    (insertOrderOnConflictDoNothing db o).inventories = db.inventories := by
  unfold insertOrderOnConflictDoNothing; split <;> rfl

@[simp] theorem debitWallet_market (db : DB) (uid a : Int) :
    (debitWallet db uid a).market = db.market := rfl

@[simp] theorem debitWallet_orders (db : DB) (uid a : Int) :
    (debitWallet db uid a).orders = db.orders := rfl

@[simp] theorem debitWallet_inventories (db : DB) (uid a : Int) :
    (debitWallet db uid a).inventories = db.inventories := rfl

@[simp] theorem debitStock_characters (db : DB) (sid iid q : Int) :
    (debitStock db sid iid q).characters = db.characters := rfl

@[simp] theorem debitStock_orders (db : DB) (sid iid q : Int) :
    (debitStock db sid iid q).orders = db.orders := rfl

@[simp] theorem debitStock_inventories (db : DB) (sid iid q : Int) :
    (debitStock db sid iid q).inventories = db.inventories := rfl

@[simp] theorem insertInventory_market (db : DB) (cid iid q : Int) :
    (insertInventory db cid iid q).market = db.market := rfl

@[simp] theorem insertInventory_characters (db : DB) (cid iid q : Int) :
    (insertInventory db cid iid q).characters = db.characters := rfl

@[simp] theorem insertInventory_orders (db : DB) (cid iid q : Int) :
    (insertInventory db cid iid q).orders = db.orders := rfl

@[simp] theorem markOrder_market (db : DB) (tok : String) :
    (markOrderCompleted db tok).market = db.market := rfl

@[simp] theorem markOrder_characters (db : DB) (tok : String) :
    (markOrderCompleted db tok).characters = db.characters := rfl

@[simp] theorem markOrder_inventories (db : DB) (tok : String) :
    (markOrderCompleted db tok).inventories = db.inventories := rfl

/-- `findStock` depends on the state only through the `market` table. -/
theorem findStock_congr {db db' : DB} (h : db.market = db'.market) (sid iid : Int) :
    findStock db sid iid = findStock db' sid iid := by
  unfold findStock; rw [h]

/-- `earliestCharacter` depends on the state only through `characters`. -/
theorem earliestCharacter_congr {db db' : DB} (h : db.characters = db'.characters)
    (uid : Int) : earliestCharacter db uid = earliestCharacter db' uid := by
  unfold earliestCharacter; rw [h]

/-- `findOrder` depends on the state only through `orders`. -/
theorem findOrder_congr {db db' : DB} (h : db.orders = db'.orders) (tok : String) :
    findOrder db tok = findOrder db' tok := by
  unfold findOrder; rw [h]

/-- Debiting the stock row updates exactly the row `findStock` returns. -/
theorem find?_stockList_debit (l : List StockRow) (sid iid q : Int) :
    (l.map (fun r =>
        if r.settlement_id == sid && r.item_id == iid then
          { r with qty_available := r.qty_available - q }
        else r)).find? (fun r => r.settlement_id == sid && r.item_id == iid) =
      (l.find? (fun r => r.settlement_id == sid && r.item_id == iid)).map
        (fun r => { r with qty_available := r.qty_available - q }) := by
  induction l with
  | nil => rfl
  | cons r l ih =>
    simp only [List.map_cons]
    by_cases hr : (r.settlement_id == sid && r.item_id == iid) = true
    · rw [if_pos hr]
      rw [List.find?_cons_of_pos (p := fun r : StockRow => r.settlement_id == sid && r.item_id == iid)
            _ (by simpa using hr),
          List.find?_cons_of_pos (p := fun r : StockRow => r.settlement_id == sid && r.item_id == iid)
            _ hr]
      rfl
    · rw [if_neg hr]
      rw [List.find?_cons_of_neg (p := fun r : StockRow => r.settlement_id == sid && r.item_id == iid)
            _ hr,
          List.find?_cons_of_neg (p := fun r : StockRow => r.settlement_id == sid && r.item_id == iid)
            _ hr]
      exact ih

theorem findStock_debitStock (db : DB) (sid iid q : Int) :
    findStock (debitStock db sid iid q) sid iid =
      (findStock db sid iid).map (fun r => { r with qty_available := r.qty_available - q }) := by
  unfold findStock debitStock
  exact find?_stockList_debit db.market sid iid q

/-- Filtering a user's characters commutes with the wallet debit map. -/
theorem filter_charList_debit (l : List CharacterRow) (uid a : Int) :
    (l.map (fun c =>
        if c.user_id == uid then { c with money := c.money - a } else c)).filter
        (fun c => c.user_id == uid) =
      (l.filter (fun c => c.user_id == uid)).map
        (fun c => { c with money := c.money - a }) := by
  induction l with
  | nil => rfl
  | cons c l ih =>
    simp only [List.map_cons]
    by_cases hc : (c.user_id == uid) = true
    · rw [if_pos hc]
      rw [List.filter_cons_of_pos (p := fun c : CharacterRow => c.user_id == uid)
            (by simpa using hc),
          List.filter_cons_of_pos (p := fun c : CharacterRow => c.user_id == uid) hc]
      simp only [List.map_cons]
      rw [ih]
    · rw [if_neg hc]
      rw [List.filter_cons_of_neg (p := fun c : CharacterRow => c.user_id == uid) hc,
          List.filter_cons_of_neg (p := fun c : CharacterRow => c.user_id == uid) hc]
      exact ih

/-- The `ORDER BY created_at LIMIT 1` fold commutes with the wallet debit. -/
theorem foldl_min_map (a : Int) (l : List CharacterRow) (acc : Option CharacterRow) :
    (l.map (fun c : CharacterRow => { c with money := c.money - a })).foldl
      (fun acc c =>
        match acc with
        | none => some c
        | some b => if c.created_at < b.created_at then some c else some b)
      (acc.map (fun c : CharacterRow => { c with money := c.money - a })) =
    (l.foldl
      (fun acc c =>
        match acc with
        | none => some c
        | some b => if c.created_at < b.created_at then some c else some b)
      acc).map (fun c : CharacterRow => { c with money := c.money - a }) := by
  induction l generalizing acc with
  | nil => rfl
  | cons c l ih =>
    simp only [List.map_cons, List.foldl_cons]
    cases acc with
    | none => simpa using ih (some c)
    | some b =>
      by_cases h : c.created_at < b.created_at
      · simpa [h] using ih (some c)
      · simpa [h] using ih (some b)

theorem earliestCharacter_debitWallet (db : DB) (uid a : Int) :
    earliestCharacter (debitWallet db uid a) uid =
      (earliestCharacter db uid).map (fun c => { c with money := c.money - a }) := by
  unfold earliestCharacter debitWallet
  simp only
  rw [filter_charList_debit db.characters uid a]
  simpa using foldl_min_map a (db.characters.filter (fun c => c.user_id == uid)) none

/-- The found stock row satisfies the selection predicate. -/
theorem findStock_some_keys {db : DB} {sid iid : Int} {st : StockRow}
    (h : findStock db sid iid = some st) :
    st.settlement_id = sid ∧ st.item_id = iid := by
  unfold findStock at h
  have := List.find?_some h
  simp only [Bool.and_eq_true, beq_iff_eq] at this
  exact this

/-- The found order's `request_id` is the token it was looked up by. -/
theorem findOrder_some_request_id {db : DB} {tok : String} {o : OrderRow}
    (h : findOrder db tok = some o) : o.request_id = tok := by
  unfold findOrder at h
  have := List.find?_some h
  simpa using this

/-- With a fresh token, the `ON CONFLICT DO NOTHING` insert appends the row. -/
theorem insertOrder_orders_fresh {db : DB} {o : OrderRow}
    (h : findOrder db o.request_id = none) :
    (insertOrderOnConflictDoNothing db o).orders = db.orders ++ [o] := by
  unfold insertOrderOnConflictDoNothing
  unfold findOrder at h
  rw [List.find?_eq_none] at h
  have hany : db.orders.any (fun x => x.request_id == o.request_id) = false := by
    rw [Bool.eq_false_iff]
    intro hc
    rw [List.any_eq_true] at hc
    obtain ⟨x, hx, hpx⟩ := hc
    exact h x hx hpx
  simp [hany]

/-- Looking up a fresh token after appending its order and marking it
completed yields the completed order. -/
theorem find?_orderList_append_mark (l : List OrderRow) (o : OrderRow) (tok : String)
    (ho : o.request_id = tok)
    (h : l.find? (fun x => x.request_id == tok) = none) :
    ((l ++ [o]).map (fun x =>
        if x.request_id == tok then { x with completed := true } else x)).find?
      (fun x => x.request_id == tok) = some { o with completed := true } := by
  induction l with
  | nil => simp [ho]
  | cons x l ih =>
    rw [List.find?_eq_none] at h
    have hx : (x.request_id == tok) = false := by
      rw [Bool.eq_false_iff]
      exact fun hc => h x (List.mem_cons_self x l) hc
    have hl : l.find? (fun x => x.request_id == tok) = none := by
      rw [List.find?_eq_none]
      exact fun y hy => h y (List.mem_cons_of_mem x hy)
    have hx' : ¬ ((x.request_id == tok) = true) := by simp [hx]
    simp only [List.cons_append, List.map_cons]
    rw [if_neg hx']
    rw [List.find?_cons_of_neg (p := fun x : OrderRow => x.request_id == tok) _ hx']
    exact ih hl

theorem findOrder_success_writes {db : DB} {o : OrderRow} {tok : String}
    (ho : o.request_id = tok) (h : findOrder db tok = none) :
    findOrder (markOrderCompleted (insertOrderOnConflictDoNothing db o) tok) tok =
      some { o with completed := true } := by
  have hfresh : findOrder db o.request_id = none := by rw [ho]; exact h
  unfold findOrder markOrderCompleted
  simp only [insertOrder_orders_fresh hfresh]
  unfold findOrder at h
  exact find?_orderList_append_mark db.orders o tok ho h

@[simp] theorem insertInventory_inventories (db : DB) (cid iid q : Int) :
    (insertInventory db cid iid q).inventories =
      db.inventories ++ [⟨cid, iid, q, 100⟩] := rfl

/-- With a present header, passing validation and a fresh token, `market_buy`
runs the transaction body once. -/
theorem market_buy_eq_txn {db : DB} {uid : Int} {tok : String} {data : BuyIn}
    (htok : tok ≠ "")
    (hv : validate_market_transaction data = [])
    (hdup : findOrder db tok = none) :
    market_buy db uid (some tok) data =
      ((market_buy_txn db uid tok data).1, (market_buy_txn db uid tok data).2.1,
        ⟨1, 1, (market_buy_txn db uid tok data).2.2⟩) := by
  have he : tok.isEmpty = false := by
    rw [Bool.eq_false_iff]
    intro hbad
    exact htok ((String.isEmpty_iff tok).mp hbad)
  have hp : headerPresent (some tok) = true := by
    simp [headerPresent, he]
  unfold market_buy
  rw [if_pos hp]
  simp only [Option.getD_some, hv, List.isEmpty_nil, if_pos, hdup]

/-- The transaction body on the all-checks-pass path: the order is inserted,
the wallet and stock are debited, the inventory row is appended and the order
is marked completed. -/
theorem market_buy_txn_success {db : DB} {uid : Int} {tok : String} {data : BuyIn}
    {st : StockRow} {w : CharacterRow}
    (hst : findStock db data.settlement_id data.item_id = some st)
    (hq : data.quantity ≤ st.qty_available)
    (hw : earliestCharacter db uid = some w)
    (hm : st.current_price * data.quantity ≤ w.money) :
    market_buy_txn db uid tok data =
      (markOrderCompleted
        (insertInventory
          (debitStock
            (debitWallet
              (insertOrderOnConflictDoNothing db
                ⟨tok, uid, data.item_id, data.quantity,
                  st.current_price * data.quantity, "buy", false⟩)
              uid (st.current_price * data.quantity))
            data.settlement_id data.item_id data.quantity)
          w.character_id data.item_id data.quantity)
        tok,
       .ok tok false,
       [.stock data.settlement_id data.item_id, .wallet uid]) := by
  unfold market_buy_txn
  simp only [hst, hw]
  rw [if_neg (not_lt.mpr hq), if_neg (not_lt.mpr hm)]

/-- The transaction body when the stock row is missing: no lock, abort. -/
theorem market_buy_txn_no_stock {db : DB} {uid : Int} {tok : String} {data : BuyIn}
    (hst : findStock db data.settlement_id data.item_id = none) :
    market_buy_txn db uid tok data = (db, .httpError 400 "Out of stock", []) := by
  unfold market_buy_txn
  simp only [hst]

/-- The transaction body when stock is insufficient: abort under the stock
lock only. -/
theorem market_buy_txn_low_stock {db : DB} {uid : Int} {tok : String} {data : BuyIn}
    {st : StockRow}
    (hst : findStock db data.settlement_id data.item_id = some st)
    (hq : st.qty_available < data.quantity) :
    market_buy_txn db uid tok data =
      (db, .httpError 400 "Out of stock",
        [.stock data.settlement_id data.item_id]) := by
  unfold market_buy_txn
  simp only [hst]
  rw [if_pos hq]

/-- The transaction body when the buyer has no character row: abort with the
funds error, holding only the stock lock. -/
theorem market_buy_txn_no_wallet {db : DB} {uid : Int} {tok : String} {data : BuyIn}
    {st : StockRow}
    (hst : findStock db data.settlement_id data.item_id = some st)
    (hq : data.quantity ≤ st.qty_available)
    (hw : earliestCharacter db uid = none) :
    market_buy_txn db uid tok data =
      (db, .httpError 400 "Insufficient funds",
        [.stock data.settlement_id data.item_id]) := by
  unfold market_buy_txn
  simp only [hst, hw]
  rw [if_neg (not_lt.mpr hq)]

/-- The transaction body when the balance is short: abort with the funds
error, after taking both locks in order. -/
theorem market_buy_txn_low_balance {db : DB} {uid : Int} {tok : String} {data : BuyIn}
    {st : StockRow} {w : CharacterRow}
    (hst : findStock db data.settlement_id data.item_id = some st)
    (hq : data.quantity ≤ st.qty_available)
    (hw : earliestCharacter db uid = some w)
    (hm : w.money < st.current_price * data.quantity) :
    market_buy_txn db uid tok data =
      (db, .httpError 400 "Insufficient funds",
        [.stock data.settlement_id data.item_id, .wallet uid]) := by
  unfold market_buy_txn
  simp only [hst, hw]
  rw [if_neg (not_lt.mpr hq), if_pos hm]

/-- `findStock` after the success-path write sequence: only the targeted stock
row is debited. -/
theorem findStock_writes (db : DB) (o : OrderRow) (uid p cid iid2 q2 : Int)
    (sid iid q : Int) (tok : String) :
    findStock
      (markOrderCompleted
        (insertInventory
          (debitStock (debitWallet (insertOrderOnConflictDoNothing db o) uid p)
            sid iid q) cid iid2 q2) tok) sid iid =
      (findStock db sid iid).map
        (fun r => { r with qty_available := r.qty_available - q }) := by
  rw [findStock_congr (markOrder_market _ _) sid iid,
      findStock_congr (insertInventory_market _ _ _ _) sid iid,
      findStock_debitStock,
      findStock_congr (debitWallet_market _ _ _) sid iid,
      findStock_congr (insertOrder_market _ _) sid iid]

/-- `earliestCharacter` after the success-path write sequence: the user's
earliest character is the same row, with the price debited. -/
theorem earliestCharacter_writes (db : DB) (o : OrderRow) (uid p sid iid q cid iid2 q2 : Int)
    (tok : String) :
    earliestCharacter
      (markOrderCompleted
        (insertInventory
          (debitStock (debitWallet (insertOrderOnConflictDoNothing db o) uid p)
            sid iid q) cid iid2 q2) tok) uid =
      (earliestCharacter db uid).map (fun c => { c with money := c.money - p }) := by
  rw [earliestCharacter_congr (markOrder_characters _ _) uid,
      earliestCharacter_congr (insertInventory_characters _ _ _ _) uid,
      earliestCharacter_congr (debitStock_characters _ _ _ _) uid,
      earliestCharacter_debitWallet,
      earliestCharacter_congr (insertOrder_characters _ _) uid]

/-- `findOrder` after the success-path write sequence on a fresh token: the
inserted order, marked completed. -/
theorem findOrder_writes (db : DB) (o : OrderRow) (uid p sid iid q cid iid2 q2 : Int)
    {tok : String} (ho : o.request_id = tok) (h : findOrder db tok = none) :
    findOrder
      (markOrderCompleted
        (insertInventory
          (debitStock (debitWallet (insertOrderOnConflictDoNothing db o) uid p)
            sid iid q) cid iid2 q2) tok) tok = some { o with completed := true } := by
  have hfresh : findOrder db o.request_id = none := by rw [ho]; exact h
  unfold findOrder markOrderCompleted
  simp only [insertInventory_orders, debitStock_orders, debitWallet_orders,
    insertOrder_orders_fresh hfresh]
  unfold findOrder at h
  exact find?_orderList_append_mark db.orders o tok ho h

/-- The locks a transaction body acquires come in exactly three shapes, each
with the stock lock first. -/
theorem market_buy_txn_locks (db : DB) (uid : Int) (tok : String) (data : BuyIn) :
    (market_buy_txn db uid tok data).2.2 = [] ∨
    (market_buy_txn db uid tok data).2.2 =
      [.stock data.settlement_id data.item_id] ∨
    (market_buy_txn db uid tok data).2.2 =
      [.stock data.settlement_id data.item_id, .wallet uid] := by
  rcases hst : findStock db data.settlement_id data.item_id with _ | st
  · rw [market_buy_txn_no_stock hst]; left; rfl
  · by_cases hq : st.qty_available < data.quantity
    · rw [market_buy_txn_low_stock hst hq]; right; left; rfl
    · rcases hw : earliestCharacter db uid with _ | w
      · rw [market_buy_txn_no_wallet hst (not_lt.mp hq) hw]; right; left; rfl
      · by_cases hm : w.money < st.current_price * data.quantity
        · rw [market_buy_txn_low_balance hst (not_lt.mp hq) hw hm]
          right; right; rfl
        · rw [market_buy_txn_success hst (not_lt.mp hq) hw (not_lt.mp hm)]
          right; right; rfl

/-- Inversion: a fresh (non-duplicate) success of the transaction body means
both checks passed and the wallet was debited by the locked price. -/
theorem market_buy_txn_ok_inv {db db' : DB} {uid : Int} {tok s : String}
    {data : BuyIn} {locks : List LockEv}
    (h : market_buy_txn db uid tok data = (db', .ok s false, locks)) :
    ∃ st w, findStock db data.settlement_id data.item_id = some st ∧
      earliestCharacter db uid = some w ∧
      data.quantity ≤ st.qty_available ∧
      st.current_price * data.quantity ≤ w.money ∧
      earliestCharacter db' uid =
        some { w with money := w.money - st.current_price * data.quantity } := by
  rcases hst : findStock db data.settlement_id data.item_id with _ | st
  · rw [market_buy_txn_no_stock hst] at h
    exact absurd h (by simp)
  · by_cases hq : st.qty_available < data.quantity
    · rw [market_buy_txn_low_stock hst hq] at h
      exact absurd h (by simp)
    · rcases hw : earliestCharacter db uid with _ | w
      · rw [market_buy_txn_no_wallet hst (not_lt.mp hq) hw] at h
        exact absurd h (by simp)
      · by_cases hm : w.money < st.current_price * data.quantity
        · rw [market_buy_txn_low_balance hst (not_lt.mp hq) hw hm] at h
          exact absurd h (by simp)
        · rw [market_buy_txn_success hst (not_lt.mp hq) hw (not_lt.mp hm)] at h
          rw [Prod.mk.injEq, Prod.mk.injEq] at h
          obtain ⟨h1, _, _⟩ := h
          refine ⟨st, w, rfl, rfl, not_lt.mp hq, not_lt.mp hm, ?_⟩
          rw [← h1, earliestCharacter_writes, hw]
          rfl

/-- Case analysis on the state the transaction body returns: unchanged on
every abort, or the success-path state with the wallet debited. -/
theorem market_buy_txn_state_cases (db : DB) (uid : Int) (tok : String)
    (data : BuyIn) :
    (market_buy_txn db uid tok data).1 = db ∨
    ∃ st w, findStock db data.settlement_id data.item_id = some st ∧
      earliestCharacter db uid = some w ∧
      data.quantity ≤ st.qty_available ∧
      st.current_price * data.quantity ≤ w.money ∧
      earliestCharacter (market_buy_txn db uid tok data).1 uid =
        some { w with money := w.money - st.current_price * data.quantity } := by
  rcases hst : findStock db data.settlement_id data.item_id with _ | st
  · rw [market_buy_txn_no_stock hst]; left; rfl
  · by_cases hq : st.qty_available < data.quantity
    · rw [market_buy_txn_low_stock hst hq]; left; rfl
    · rcases hw : earliestCharacter db uid with _ | w
      · rw [market_buy_txn_no_wallet hst (not_lt.mp hq) hw]; left; rfl
      · by_cases hm : w.money < st.current_price * data.quantity
        · rw [market_buy_txn_low_balance hst (not_lt.mp hq) hw hm]; left; rfl
        · rw [market_buy_txn_success hst (not_lt.mp hq) hw (not_lt.mp hm)]
          right
          refine ⟨st, w, rfl, rfl, not_lt.mp hq, not_lt.mp hm, ?_⟩
          rw [earliestCharacter_writes, hw]
          rfl

/-- Case analysis on the state `market_buy` returns: either unchanged, or the
success-path state with the earliest character debited by the locked price. -/
theorem market_buy_state_cases (db : DB) (uid : Int) (x : Option String)
    (data : BuyIn) :
    (market_buy db uid x data).1 = db ∨
    ∃ st w, findStock db data.settlement_id data.item_id = some st ∧
      earliestCharacter db uid = some w ∧
      data.quantity ≤ st.qty_available ∧
      st.current_price * data.quantity ≤ w.money ∧
      earliestCharacter (market_buy db uid x data).1 uid =
        some { w with money := w.money - st.current_price * data.quantity } := by
  unfold market_buy
  by_cases hp : headerPresent x = true
  · rw [if_pos hp]
    by_cases hv : (validate_market_transaction data).isEmpty = true
    · rw [if_pos hv]
      rcases hf : findOrder db (x.getD "") with _ | o
      · rcases hm : market_buy_txn db uid (x.getD "") data with ⟨db2, r, locks⟩
        rcases market_buy_txn_state_cases db uid (x.getD "") data with h | ⟨st, w, h1, h2, h3, h4, h5⟩
        · left
          rw [hm] at h
          simpa [hm] using h
        · right
          rw [hm] at h5
          exact ⟨st, w, h1, h2, h3, h4, by simpa [hm] using h5⟩
      · left; rfl
    · rw [if_neg hv]; left; rfl
  · rw [if_neg hp]; left; rfl

/-- A non-empty `X-Request-Id` header passes the truthiness check. -/
theorem headerPresent_some {tok : String} (htok : tok ≠ "") :
    headerPresent (some tok) = true := by
  have he : tok.isEmpty = false := by
    rw [Bool.eq_false_iff]
    intro hbad
    exact htok ((String.isEmpty_iff tok).mp hbad)
  simp [headerPresent, he]

/-- Inversion: a `duplicate = false` success of `market_buy` comes from the
transaction body. -/
theorem market_buy_ok_fresh_inv {db db' : DB} {uid : Int} {x : Option String}
    {data : BuyIn} {s : String} {tr : Trace}
    (h : market_buy db uid x data = (db', .ok s false, tr)) :
    market_buy_txn db uid (x.getD "") data = (db', .ok s false, tr.locks) := by
  simp only [market_buy] at h
  by_cases hp : headerPresent x = true
  · rw [if_pos hp] at h
    by_cases hv : (validate_market_transaction data).isEmpty = true
    · rw [if_pos hv] at h
      rcases hf : findOrder db (x.getD "") with _ | o
      · rw [hf] at h
        rcases hm : market_buy_txn db uid (x.getD "") data with ⟨db2, r, locks⟩
        rw [hm] at h
        simp only [Prod.mk.injEq] at h
        obtain ⟨h1, h2, h3⟩ := h
        rw [h1, h2, ← h3]
      · rw [hf] at h
        simp only [Prod.mk.injEq, Resp.ok.injEq] at h
        exact absurd h.2.1.2 (by simp)
    · rw [if_neg hv] at h
      exact absurd h (by simp)
  · rw [if_neg hp] at h
    exact absurd h (by simp)

/-! ### Concrete states used to witness the claims -/

/-- One stock row (settlement 1, item 1, price 5, 10 available) and one buyer
(user 7, character 1) with balance 100; no orders, no inventory. -/
def dbEx : DB :=
  { market := [⟨1, 1, 5, 10⟩], characters := [⟨1, 7, 100, 0⟩],
    orders := [], inventories := [] }

/-- `dbEx` after a completed purchase of 3 units with token "t". -/
def dbAfterB : DB :=
  { market := [⟨1, 1, 5, 7⟩], characters := [⟨1, 7, 85, 0⟩],
    orders := [⟨"t", 7, 1, 3, 15, "buy", true⟩],
    inventories := [⟨1, 1, 3, 100⟩] }

/-- The state after the token-"t" transaction body runs a second time on
`dbAfterB`: every ledger mutation is applied again. -/
def dbAfterRace : DB :=
  { market := [⟨1, 1, 5, 4⟩], characters := [⟨1, 7, 70, 0⟩],
    orders := [⟨"t", 7, 1, 3, 15, "buy", true⟩],
    inventories := [⟨1, 1, 3, 100⟩, ⟨1, 1, 3, 100⟩] }

/-- Like `dbEx` but the buyer's balance is only 4. -/
def dbPoor : DB :=
  { market := [⟨1, 1, 5, 10⟩], characters := [⟨1, 7, 4, 0⟩],
    orders := [], inventories := [] }

/-- Like `dbEx` but only 2 units are available. -/
def dbLowStock : DB :=
  { market := [⟨1, 1, 5, 2⟩], characters := [⟨1, 7, 100, 0⟩],
    orders := [], inventories := [] }

/-- Like `dbEx` but the authenticated user has no character row at all. -/
def dbNoChar : DB :=
  { market := [⟨1, 1, 5, 10⟩], characters := [],
    orders := [], inventories := [] }

/-! ### The claims -/

/-- C1: the claim states that when the order insert for the request token
conflicts (another transaction already inserted the same token), the
orchestrator aborts, re-reads the existing order and returns it with
`duplicate = true`, so that issuing the same token N times produces exactly
one completed order and one set of stock/wallet/inventory mutations.  The
code violates this.  The schedule below is realisable because the
idempotency lookup (app.py:488) runs before the transaction opens
(app.py:495): call A's lookup sees no order for token "t"; call B with the
same token then runs to commit; A's transaction body then executes on the
committed state.  A's `INSERT ... ON CONFLICT (request_id) DO NOTHING`
conflicts but does not raise, so the `except` branch (app.py:519-521, whose
comment promises `duplicate=true` on conflict) is dead, and A re-applies
every ledger mutation: stock 4 instead of 7, balance 70 instead of 85, two
inventory rows instead of one, and A reports `duplicate = false`. -/
theorem C1_duplicate_token_race :
    findOrder dbEx "t" = none ∧
    market_buy dbEx 7 (some "t") ⟨1, 1, 3⟩ =
      (dbAfterB, .ok "t" false, ⟨1, 1, [.stock 1 1, .wallet 7]⟩) ∧
    market_buy_txn dbAfterB 7 "t" ⟨1, 1, 3⟩ =
      (dbAfterRace, .ok "t" false, [.stock 1 1, .wallet 7]) :=
  ⟨rfl, rfl, rfl⟩

/-- C2: a buy request whose (non-empty) token matches an already-Completed
order is answered from the pre-transaction idempotency lookup: `market_buy`
returns `ok` with `order_id` equal to the token and `duplicate = true`,
opens no transaction, acquires no row lock, and performs no write (the state
is returned unchanged).  The request is assumed to pass input validation,
which the endpoint runs before the lookup. -/
theorem C2_completed_token_replay (db : DB) (uid : Int) (tok : String)
    (data : BuyIn) (o : OrderRow)
    (htok : tok ≠ "")
    (hv : validate_market_transaction data = [])
    (ho : findOrder db tok = some o)
    (hc : o.completed = true) :
    market_buy db uid (some tok) data = (db, .ok tok true, ⟨1, 0, []⟩) := by
  have hrid := findOrder_some_request_id ho
  unfold market_buy
  rw [if_pos (headerPresent_some htok)]
  simp only [Option.getD_some, hv, List.isEmpty_nil, if_true, ho, hrid]

/-- Witness for C2: replaying token "t" against the completed order in
`dbAfterB` returns it as a duplicate with no transaction, no lock and no
state change. -/
theorem C2_completed_token_replay_witness :
    market_buy dbAfterB 7 (some "t") ⟨1, 1, 3⟩ =
      (dbAfterB, .ok "t" true, ⟨1, 0, []⟩) :=
  C2_completed_token_replay dbAfterB 7 "t" ⟨1, 1, 3⟩
    ⟨"t", 7, 1, 3, 15, "buy", true⟩ (by decide) rfl rfl rfl

/-- C4: when the locked stock row holds fewer units than requested,
`market_buy` aborts with the out-of-stock error (HTTP 400, the code's
surface for `InsufficientStock`) and the state — in particular the stock
quantity and the wallet balance — is returned unchanged; only the stock
lock was taken. -/
theorem C4_insufficient_stock (db : DB) (uid : Int) (tok : String)
    (data : BuyIn) (st : StockRow)
    (htok : tok ≠ "")
    (hv : validate_market_transaction data = [])
    (hdup : findOrder db tok = none)
    (hst : findStock db data.settlement_id data.item_id = some st)
    (hq : st.qty_available < data.quantity) :
    market_buy db uid (some tok) data =
      (db, .httpError 400 "Out of stock",
        ⟨1, 1, [.stock data.settlement_id data.item_id]⟩) := by
  rw [market_buy_eq_txn htok hv hdup, market_buy_txn_low_stock hst hq]

/-- Witness for C4: stock 2, buy quantity 5 — rejected, state unchanged. -/
theorem C4_insufficient_stock_witness :
    market_buy dbLowStock 7 (some "t") ⟨1, 1, 5⟩ =
      (dbLowStock, .httpError 400 "Out of stock", ⟨1, 1, [.stock 1 1]⟩) :=
  C4_insufficient_stock dbLowStock 7 "t" ⟨1, 1, 5⟩ ⟨1, 1, 5, 2⟩
    (by decide) rfl rfl rfl (by decide)

/-- C3: when every precondition holds — the request validates, the token is
fresh, the stock row exists with enough quantity, and the buyer's wallet
covers `current_price × quantity` read under the stock lock — `market_buy`
debits the stock row by the quantity, debits the buyer's wallet by the
locked price, appends exactly one inventory row of that quantity, records
the order as completed, and returns `ok` with `order_id = token` and
`duplicate = false`. -/
theorem C3_successful_purchase (db : DB) (uid : Int) (tok : String)
    (data : BuyIn) (st : StockRow) (w : CharacterRow)
    (htok : tok ≠ "")
    (hv : validate_market_transaction data = [])
    (hdup : findOrder db tok = none)
    (hst : findStock db data.settlement_id data.item_id = some st)
    (hq : data.quantity ≤ st.qty_available)
    (hw : earliestCharacter db uid = some w)
    (hm : st.current_price * data.quantity ≤ w.money) :
    ∃ db',
      market_buy db uid (some tok) data =
        (db', .ok tok false,
          ⟨1, 1, [.stock data.settlement_id data.item_id, .wallet uid]⟩) ∧
      findStock db' data.settlement_id data.item_id =
        some { st with qty_available := st.qty_available - data.quantity } ∧
      earliestCharacter db' uid =
        some { w with money := w.money - st.current_price * data.quantity } ∧
      db'.inventories =
        db.inventories ++ [⟨w.character_id, data.item_id, data.quantity, 100⟩] ∧
      findOrder db' tok =
        some ⟨tok, uid, data.item_id, data.quantity,
          st.current_price * data.quantity, "buy", true⟩ := by
  refine ⟨markOrderCompleted
      (insertInventory
        (debitStock
          (debitWallet
            (insertOrderOnConflictDoNothing db
              ⟨tok, uid, data.item_id, data.quantity,
                st.current_price * data.quantity, "buy", false⟩)
            uid (st.current_price * data.quantity))
          data.settlement_id data.item_id data.quantity)
        w.character_id data.item_id data.quantity)
      tok, ?_, ?_, ?_, ?_, ?_⟩
  · rw [market_buy_eq_txn htok hv hdup, market_buy_txn_success hst hq hw hm]
  · rw [findStock_writes, hst]
    rfl
  · rw [earliestCharacter_writes, hw]
    rfl
  · simp only [markOrder_inventories, insertInventory_inventories,
      debitStock_inventories, debitWallet_inventories, insertOrder_inventories]
  · exact findOrder_writes db _ uid (st.current_price * data.quantity)
      data.settlement_id data.item_id data.quantity w.character_id data.item_id
      data.quantity rfl hdup

/-- Witness for C3: stock 10 at price 5, balance 100, buy quantity 3 —
completed with stock 7, balance 85, inventory +3. -/
theorem C3_successful_purchase_witness :
    ∃ db',
      market_buy dbEx 7 (some "t") ⟨1, 1, 3⟩ =
        (db', .ok "t" false, ⟨1, 1, [.stock 1 1, .wallet 7]⟩) ∧
      findStock db' 1 1 = some ⟨1, 1, 5, 7⟩ ∧
      earliestCharacter db' 7 = some ⟨1, 7, 85, 0⟩ ∧
      db'.inventories = [⟨1, 1, 3, 100⟩] ∧
      findOrder db' "t" = some ⟨"t", 7, 1, 3, 15, "buy", true⟩ :=
  C3_successful_purchase dbEx 7 "t" ⟨1, 1, 3⟩ ⟨1, 1, 5, 10⟩ ⟨1, 7, 100, 0⟩
    (by decide) rfl rfl rfl (by decide) rfl (by decide)

/-- C5: when the buyer's wallet balance is below `current_price × quantity`,
`market_buy` aborts with the insufficient-funds error (HTTP 400) and returns
the state unchanged — no stock, wallet, inventory or order mutation.
Consequently (second and third conjuncts, over every input) the buyer's
wallet balance never goes negative, and a `duplicate = false` purchase
succeeds only when the balance read under the lock covers the price. -/
theorem C5_insufficient_funds (db : DB) (uid : Int) (tok : String)
    (data : BuyIn) (st : StockRow) (w : CharacterRow)
    (htok : tok ≠ "")
    (hv : validate_market_transaction data = [])
    (hdup : findOrder db tok = none)
    (hst : findStock db data.settlement_id data.item_id = some st)
    (hq : data.quantity ≤ st.qty_available)
    (hw : earliestCharacter db uid = some w)
    (hm : w.money < st.current_price * data.quantity) :
    market_buy db uid (some tok) data =
      (db, .httpError 400 "Insufficient funds",
        ⟨1, 1, [.stock data.settlement_id data.item_id, .wallet uid]⟩) ∧
    (∀ (db₁ : DB) (uid₁ : Int) (x₁ : Option String) (data₁ : BuyIn),
      (∀ c, earliestCharacter db₁ uid₁ = some c → 0 ≤ c.money) →
      ∀ c', earliestCharacter (market_buy db₁ uid₁ x₁ data₁).1 uid₁ = some c' →
        0 ≤ c'.money) ∧
    (∀ (db₁ db₁' : DB) (uid₁ : Int) (x₁ : Option String) (data₁ : BuyIn)
        (s₁ : String) (tr₁ : Trace),
      market_buy db₁ uid₁ x₁ data₁ = (db₁', .ok s₁ false, tr₁) →
      ∃ st₁ w₁, findStock db₁ data₁.settlement_id data₁.item_id = some st₁ ∧
        earliestCharacter db₁ uid₁ = some w₁ ∧
        st₁.current_price * data₁.quantity ≤ w₁.money) := by
  refine ⟨?_, ?_, ?_⟩
  · rw [market_buy_eq_txn htok hv hdup, market_buy_txn_low_balance hst hq hw hm]
  · intro db₁ uid₁ x₁ data₁ hpos c' hc'
    rcases market_buy_state_cases db₁ uid₁ x₁ data₁ with hcase | ⟨st₁, w₁, _, _, _, hm₁, hE⟩
    · rw [hcase] at hc'
      exact hpos c' hc'
    · rw [hE] at hc'
      obtain ⟨hcc⟩ := Option.some.injEq _ _ ▸ hc'
      injection hc' with hc2
      rw [← hc2]
      simpa using sub_nonneg.mpr hm₁
  · intro db₁ db₁' uid₁ x₁ data₁ s₁ tr₁ h
    obtain ⟨st₁, w₁, h1, h2, _, h4, _⟩ := market_buy_txn_ok_inv (market_buy_ok_fresh_inv h)
    exact ⟨st₁, w₁, h1, h2, h4⟩

/-- Witness for C5: balance 4, price×quantity 5 — rejected, no mutation. -/
theorem C5_insufficient_funds_witness :
    market_buy dbPoor 7 (some "t") ⟨1, 1, 1⟩ =
      (dbPoor, .httpError 400 "Insufficient funds",
        ⟨1, 1, [.stock 1 1, .wallet 7]⟩) :=
  (C5_insufficient_funds dbPoor 7 "t" ⟨1, 1, 1⟩ ⟨1, 1, 5, 10⟩ ⟨1, 7, 4, 0⟩
    (by decide) rfl rfl rfl (by decide) rfl (by decide)).1

/-- C6 as stated is false.  The claim says every invalid input — including an
unknown item/location — is rejected with a validation (`InvalidInput`) error
without opening a transaction.  But the validator only checks the sign (and
size) of the ids, not their existence: a buy of quantity 1 for the unknown
pair (settlement 5, item 7) on `dbEx` passes validation, opens a transaction
(trace records one transaction), and fails inside it with the HTTP 400
"Out of stock" error — not a validation error. -/
theorem C6_counterexample :
    market_buy dbEx 7 (some "t") ⟨5, 7, 1⟩ =
      (dbEx, .httpError 400 "Out of stock", ⟨1, 1, []⟩) := rfl

/-- C6 amended: with the mandatory header present, a request that fails
input validation (non-positive quantity, quantity above 10000, non-positive
item or settlement id) is rejected with the 422 validation error before the
order lookup, before any transaction and before any lock, with no state
change; a request for an unknown — but positively numbered — item/location
passes validation, opens a transaction, and is rejected inside it with the
HTTP 400 "Out of stock" error, locking no row and changing no state. -/
theorem C6_invalid_and_unknown (db : DB) (uid : Int) (tok : String)
    (data : BuyIn) (htok : tok ≠ "") :
    (validate_market_transaction data ≠ [] →
      market_buy db uid (some tok) data =
        (db, .validationFailed 422 (validate_market_transaction data),
          ⟨0, 0, []⟩)) ∧
    (validate_market_transaction data = [] →
      findOrder db tok = none →
      findStock db data.settlement_id data.item_id = none →
      market_buy db uid (some tok) data =
        (db, .httpError 400 "Out of stock", ⟨1, 1, []⟩)) := by
  constructor
  · intro hne
    have hie : (validate_market_transaction data).isEmpty = false := by
      cases hvv : validate_market_transaction data with
      | nil => exact absurd hvv hne
      | cons a l => rfl
    unfold market_buy
    rw [if_pos (headerPresent_some htok)]
    simp only [Option.getD_some, hie, Bool.false_eq_true, if_false]
  · intro hv hdup hst
    rw [market_buy_eq_txn htok hv hdup, market_buy_txn_no_stock hst]

/-- Witness for the amended C6: quantity 0 is rejected 422 with no database
access at all; the unknown pair (5, 7) is rejected 400 inside a transaction
with no lock. -/
theorem C6_invalid_and_unknown_witness :
    market_buy dbEx 7 (some "t") ⟨1, 1, 0⟩ =
      (dbEx, .validationFailed 422 [("quantity", "Quantity must be positive")],
        ⟨0, 0, []⟩) ∧
    market_buy dbEx 7 (some "u") ⟨5, 7, 1⟩ =
      (dbEx, .httpError 400 "Out of stock", ⟨1, 1, []⟩) :=
  ⟨(C6_invalid_and_unknown dbEx 7 "t" ⟨1, 1, 0⟩ (by decide)).1 (by decide),
   (C6_invalid_and_unknown dbEx 7 "u" ⟨5, 7, 1⟩ (by decide)).2 rfl rfl rfl⟩

/-- C7 as stated is false.  The claim says a store-level commit failure makes
the whole transaction sequence be retried a bounded number of times before a
transient error is surfaced.  The code has no retry: with a commit oracle
whose first attempt fails and every later attempt would succeed, the call
surfaces the mapped 500 error after exactly one transaction (trace records
`txns = 1`), while the very same call under an all-succeeding oracle
completes the purchase — so a single retry would have succeeded and none was
made. -/
theorem C7_counterexample :
    market_buy_commit dbEx 7 (some "t") ⟨1, 1, 3⟩ (fun k => decide (1 ≤ k)) =
      (dbEx, .httpError 500 "Database operation failed",
        ⟨1, 1, [.stock 1 1, .wallet 7]⟩) ∧
    market_buy_commit dbEx 7 (some "t") ⟨1, 1, 3⟩ (fun _ => true) =
      (dbAfterB, .ok "t" false, ⟨1, 1, [.stock 1 1, .wallet 7]⟩) :=
  ⟨rfl, rfl⟩

/-- C7 amended: the code never retries.  When the first commit fails, the
call returns the pre-transaction state (never a partial result), at most one
transaction is recorded, and no fresh-purchase success is reported; moreover
the outcome depends on the commit oracle only through its first attempt. -/
theorem C7_no_retry_no_partial (db : DB) (uid : Int) (x : Option String)
    (data : BuyIn) (f : Nat → Bool) (hf : f 0 = false) :
    (market_buy_commit db uid x data f).1 = db ∧
    (market_buy_commit db uid x data f).2.2.txns ≤ 1 ∧
    (∀ s, (market_buy_commit db uid x data f).2.1 ≠ .ok s false) ∧
    (∀ g : Nat → Bool, g 0 = f 0 →
      market_buy_commit db uid x data g = market_buy_commit db uid x data f) := by
  rcases hm : market_buy_txn db uid (x.getD "") data with ⟨db2, r, locks⟩
  by_cases hp : headerPresent x = true
  · by_cases hv : (validate_market_transaction data).isEmpty = true
    · rcases hor : findOrder db (x.getD "") with _ | o
      · refine ⟨?_, ?_, ?_, ?_⟩
        · rcases r with ⟨oid, dup⟩ | ⟨vs, verrs⟩ | ⟨hs, hd⟩ <;>
            simp [market_buy_commit, hp, hv, hor, hm, hf]
        · rcases r with ⟨oid, dup⟩ | ⟨vs, verrs⟩ | ⟨hs, hd⟩ <;>
            simp [market_buy_commit, hp, hv, hor, hm, hf]
        · rcases r with ⟨oid, dup⟩ | ⟨vs, verrs⟩ | ⟨hs, hd⟩ <;>
            simp [market_buy_commit, hp, hv, hor, hm, hf]
        · intro g hg
          rcases r with ⟨oid, dup⟩ | ⟨vs, verrs⟩ | ⟨hs, hd⟩ <;>
            simp [market_buy_commit, hp, hv, hor, hm, hf, hg]
      · exact ⟨by simp [market_buy_commit, hp, hv, hor],
          by simp [market_buy_commit, hp, hv, hor],
          by simp [market_buy_commit, hp, hv, hor],
          fun g _ => by simp [market_buy_commit, hp, hv, hor]⟩
    · exact ⟨by simp [market_buy_commit, hp, hv],
        by simp [market_buy_commit, hp, hv],
        by simp [market_buy_commit, hp, hv],
        fun g _ => by simp [market_buy_commit, hp, hv]⟩
  · exact ⟨by simp [market_buy_commit, hp],
      by simp [market_buy_commit, hp],
      by simp [market_buy_commit, hp],
      fun g _ => by simp [market_buy_commit, hp]⟩

/-- Witness for the amended C7: under an always-failing commit oracle the
concrete call keeps the state, records one transaction, and reports no
fresh success. -/
theorem C7_no_retry_no_partial_witness :
    (market_buy_commit dbEx 7 (some "t") ⟨1, 1, 3⟩ (fun _ => false)).1 = dbEx ∧
    (market_buy_commit dbEx 7 (some "t") ⟨1, 1, 3⟩ (fun _ => false)).2.2.txns ≤ 1 ∧
    (∀ s, (market_buy_commit dbEx 7 (some "t") ⟨1, 1, 3⟩
      (fun _ => false)).2.1 ≠ .ok s false) ∧
    (∀ g : Nat → Bool, g 0 = false →
      market_buy_commit dbEx 7 (some "t") ⟨1, 1, 3⟩ g =
        market_buy_commit dbEx 7 (some "t") ⟨1, 1, 3⟩ (fun _ => false)) :=
  C7_no_retry_no_partial dbEx 7 (some "t") ⟨1, 1, 3⟩ (fun _ => false) rfl

/-- C8: in every execution, the locks `market_buy` acquires come in one of
three shapes — none, the stock row alone, or the stock row followed by the
buyer's wallet row — so whenever the wallet row is locked, the stock row for
the request's (settlement, item) pair was locked strictly before it, and
never the reverse. -/
theorem C8_stock_lock_before_wallet_lock (db : DB) (uid : Int)
    (x : Option String) (data : BuyIn) :
    (market_buy db uid x data).2.2.locks = [] ∨
    (market_buy db uid x data).2.2.locks =
      [.stock data.settlement_id data.item_id] ∨
    (market_buy db uid x data).2.2.locks =
      [.stock data.settlement_id data.item_id, .wallet uid] := by
  unfold market_buy
  by_cases hp : headerPresent x = true
  · rw [if_pos hp]
    by_cases hv : (validate_market_transaction data).isEmpty = true
    · rw [if_pos hv]
      rcases hor : findOrder db (x.getD "") with _ | o
      · rcases hm : market_buy_txn db uid (x.getD "") data with ⟨db2, r, locks⟩
        have hsh := market_buy_txn_locks db uid (x.getD "") data
        rw [hm] at hsh
        simpa using hsh
      · left; rfl
    · rw [if_neg hv]; left; rfl
  · rw [if_neg hp]; left; rfl

/-- C9: a buy request with quantity above 10000 (and well-formed ids and
header) is rejected with the 422 "Quantity too large" validation error before
any database access: no order lookup, no transaction, no lock, no state
change.  Moreover (second conjunct) for well-formed ids the validator accepts
a quantity exactly when it lies in 1..10000 — an upper bound the spec does
not state. -/
theorem C9_quantity_upper_bound (db : DB) (uid : Int) (tok : String)
    (sid iid q : Int)
    (htok : tok ≠ "") (hq : 10000 < q) (hs : 0 < sid) (hi : 0 < iid) :
    market_buy db uid (some tok) ⟨sid, iid, q⟩ =
      (db, .validationFailed 422 [("quantity", "Quantity too large")],
        ⟨0, 0, []⟩) ∧
    (∀ q' : Int, validate_market_transaction ⟨sid, iid, q'⟩ = [] ↔
      1 ≤ q' ∧ q' ≤ 10000) := by
  have hval : ∀ q' : Int, validate_market_transaction ⟨sid, iid, q'⟩ =
      (if q' ≤ 0 then [("quantity", "Quantity must be positive")]
       else if q' > 10000 then [("quantity", "Quantity too large")]
       else []) := by
    intro q'
    unfold validate_market_transaction
    rw [if_neg (by omega : ¬ (iid : Int) ≤ 0), if_neg (by omega : ¬ (sid : Int) ≤ 0)]
    simp
  constructor
  · have hv9 : validate_market_transaction ⟨sid, iid, q⟩ =
        [("quantity", "Quantity too large")] := by
      rw [hval q, if_neg (by omega : ¬ q ≤ 0), if_pos hq]
    unfold market_buy
    rw [if_pos (headerPresent_some htok)]
    simp only [Option.getD_some, hv9]
    rfl
  · intro q'
    rw [hval q']
    by_cases h0 : q' ≤ 0
    · rw [if_pos h0]
      constructor
      · intro hbad; cases hbad
      · intro hrange; omega
    · rw [if_neg h0]
      by_cases hbig : q' > 10000
      · rw [if_pos hbig]
        constructor
        · intro hbad; cases hbad
        · intro hrange; omega
      · rw [if_neg hbig]
        constructor
        · intro _; omega
        · intro _; rfl

/-- Witness for C9: quantity 10001 on `dbEx` is rejected 422 with no order
lookup, no transaction and no lock; and the validator accepts 1..10000. -/
theorem C9_quantity_upper_bound_witness :
    (market_buy dbEx 7 (some "t") ⟨1, 1, 10001⟩ =
      (dbEx, .validationFailed 422 [("quantity", "Quantity too large")],
        ⟨0, 0, []⟩)) ∧
    (∀ q' : Int, validate_market_transaction ⟨1, 1, q'⟩ = [] ↔
      1 ≤ q' ∧ q' ≤ 10000) :=
  C9_quantity_upper_bound dbEx 7 "t" 1 1 10001
    (by decide) (by decide) (by decide) (by decide)

/-- C10: when the authenticated buyer has no character row at all, the
wallet locking read returns no row and `market_buy` aborts with the very
same HTTP 400 "Insufficient funds" error a too-low balance produces (second
conjunct), so the two cases are indistinguishable at the public interface;
the transaction aborts with no state change, having locked only the stock
row. -/
theorem C10_missing_wallet_as_insufficient_funds (db : DB) (uid : Int)
    (tok : String) (data : BuyIn) (st : StockRow)
    (htok : tok ≠ "")
    (hv : validate_market_transaction data = [])
    (hdup : findOrder db tok = none)
    (hst : findStock db data.settlement_id data.item_id = some st)
    (hq : data.quantity ≤ st.qty_available)
    (hw : earliestCharacter db uid = none) :
    market_buy db uid (some tok) data =
      (db, .httpError 400 "Insufficient funds",
        ⟨1, 1, [.stock data.settlement_id data.item_id]⟩) ∧
    (∀ (db₁ : DB) (uid₁ : Int) (tok₁ : String) (data₁ : BuyIn)
        (st₁ : StockRow) (w₁ : CharacterRow),
      tok₁ ≠ "" →
      validate_market_transaction data₁ = [] →
      findOrder db₁ tok₁ = none →
      findStock db₁ data₁.settlement_id data₁.item_id = some st₁ →
      data₁.quantity ≤ st₁.qty_available →
      earliestCharacter db₁ uid₁ = some w₁ →
      w₁.money < st₁.current_price * data₁.quantity →
      (market_buy db₁ uid₁ (some tok₁) data₁).2.1 =
        .httpError 400 "Insufficient funds") := by
  constructor
  · rw [market_buy_eq_txn htok hv hdup, market_buy_txn_no_wallet hst hq hw]
  · intro db₁ uid₁ tok₁ data₁ st₁ w₁ htok₁ hv₁ hdup₁ hst₁ hq₁ hw₁ hm₁
    rw [market_buy_eq_txn htok₁ hv₁ hdup₁,
      market_buy_txn_low_balance hst₁ hq₁ hw₁ hm₁]

/-- Witness for C10: a buyer with no character row is told "Insufficient
funds" with no state change, only the stock row locked. -/
theorem C10_missing_wallet_witness :
    market_buy dbNoChar 7 (some "t") ⟨1, 1, 1⟩ =
      (dbNoChar, .httpError 400 "Insufficient funds", ⟨1, 1, [.stock 1 1]⟩) :=
  (C10_missing_wallet_as_insufficient_funds dbNoChar 7 "t" ⟨1, 1, 1⟩
    ⟨1, 1, 5, 10⟩ (by decide) rfl rfl rfl (by decide) rfl).1

end Market
